import Mathlib

/-!
Verification development for the im2im U-Net repository
(src/im2im/unet/model.py).

The development has three layers:

* an architecture model: records holding the channel wiring that each
  module's constructor sets up (translated from the __init__ methods);
* a computable shape semantics over ℕ: for each module, the function
  mapping an input tensor shape (B, C, H, W) to the output shape, or
  none when the underlying tensor runtime would raise a
  shape-mismatch error;
* a real-valued state-passing value semantics: tensors carry an
  element function ℕ → ℕ → ℕ → ℕ → ℝ, modules map (params, input) to
  (output, params), with batch-normalization running statistics
  updated in training mode exactly as the framework does.

A small model of the Python class machinery (the super(type, obj)
instance check) settles the claims about AvgPoolUNet's constructor.
-/

/-- A tensor shape (batch, channels, height, width). -/
structure Shape where
  B : ℕ
  C : ℕ
  H : ℕ
  W : ℕ
deriving DecidableEq, Repr

/-- Channel wiring of a DoubleConv block: in_channels, mid_channels,
out_channels, as set up by DoubleConv.__init__. -/
structure DCArch where
  inC : ℕ
  mid : ℕ
  outC : ℕ
deriving DecidableEq, Repr

/-- DoubleConv.__init__: mid_channels defaults to out_channels when the
argument is absent or falsy (Python: if not mid_channels). -/
def DoubleConv.mk (in_channels out_channels : ℕ) (mid_channels : Option ℕ) : DCArch :=
  match mid_channels with
  | none => ⟨in_channels, out_channels, out_channels⟩
  | some 0 => ⟨in_channels, out_channels, out_channels⟩
  | some m => ⟨in_channels, m, out_channels⟩

/-- Wiring of a Down / AvgDown block: a 2x2 pooling stage (no
parameters) followed by a DoubleConv. -/
structure DownArch where
  conv : DCArch
deriving DecidableEq, Repr

/-- Down.__init__: MaxPool2d(2) then DoubleConv(in_channels, out_channels). -/
def Down.mk (in_channels out_channels : ℕ) : DownArch :=
  ⟨DoubleConv.mk in_channels out_channels none⟩

/-- AvgDown.__init__: AvgPool2d(2) then DoubleConv(in_channels, out_channels);
the wiring is the same as Down's, only the pooling rule differs. -/
def AvgDown.mk (in_channels out_channels : ℕ) : DownArch :=
  ⟨DoubleConv.mk in_channels out_channels none⟩

/-- Wiring of an Up block, as set up by Up.__init__: when bilinear the
upsampling is parameter-free and the DoubleConv gets
mid_channels = in_channels / 2; otherwise a transposed convolution
halves the channel count and the DoubleConv uses the default mid. -/
structure UpArch where
  inC : ℕ
  outC : ℕ
  bilinear : Bool
  conv : DCArch
deriving DecidableEq, Repr

/-- Up.__init__. -/
def Up.mk (in_channels out_channels : ℕ) (bilinear : Bool) : UpArch :=
  if bilinear then
    ⟨in_channels, out_channels, true,
      DoubleConv.mk in_channels out_channels (some (in_channels / 2))⟩
  else
    ⟨in_channels, out_channels, false,
      DoubleConv.mk in_channels out_channels none⟩

/-- Wiring of OutConv: a 1x1 convolution from in_channels to
out_channels followed by Tanh. -/
structure OutArch where
  inC : ℕ
  outC : ℕ
deriving DecidableEq, Repr

/-- OutConv.__init__. -/
def OutConv.mk (in_channels out_channels : ℕ) : OutArch :=
  ⟨in_channels, out_channels⟩

/-- The full U-Net wiring created by UNet.__init__ (and, textually
identically, by the body of AvgPoolUNet.__init__). -/
structure UNetArch where
  n_channels : ℕ
  n_classes : ℕ
  bilinear : Bool
  inc : DCArch
  down1 : DownArch
  down2 : DownArch
  down3 : DownArch
  down4 : DownArch
  up1 : UpArch
  up2 : UpArch
  up3 : UpArch
  up4 : UpArch
  outc : OutArch
deriving DecidableEq, Repr

/-- UNet.__init__ (model.py lines 92-108). -/
def UNet.mk (n_channels n_classes : ℕ) (bilinear : Bool) : UNetArch :=
  let factor := if bilinear then 2 else 1
  { n_channels := n_channels
    n_classes := n_classes
    bilinear := bilinear
    inc := DoubleConv.mk n_channels 64 none
    down1 := Down.mk 64 128
    down2 := Down.mk 128 256
    down3 := Down.mk 256 512
    down4 := Down.mk 512 (1024 / factor)
    up1 := Up.mk 1024 (512 / factor) bilinear
    up2 := Up.mk 512 (256 / factor) bilinear
    up3 := Up.mk 256 (128 / factor) bilinear
    up4 := Up.mk 128 64 bilinear
    outc := OutConv.mk 64 n_classes }

/-- The layer wiring written in the body of AvgPoolUNet.__init__
(model.py lines 139-153): same channel schedule as UNet.mk, with
AvgDown in place of Down. -/
def AvgPoolUNet.mkLayers (n_channels n_classes : ℕ) (bilinear : Bool) : UNetArch :=
  let factor := if bilinear then 2 else 1
  { n_channels := n_channels
    n_classes := n_classes
    bilinear := bilinear
    inc := DoubleConv.mk n_channels 64 none
    down1 := AvgDown.mk 64 128
    down2 := AvgDown.mk 128 256
    down3 := AvgDown.mk 256 512
    down4 := AvgDown.mk 512 (1024 / factor)
    up1 := Up.mk 1024 (512 / factor) bilinear
    up2 := Up.mk 512 (256 / factor) bilinear
    up3 := Up.mk 256 (128 / factor) bilinear
    up4 := Up.mk 128 64 bilinear
    outc := OutConv.mk 64 n_classes }

/-! ## Shape semantics

For each tensor-runtime primitive used by the model, the function from
input shape to output shape, returning none exactly when the runtime
raises a shape-mismatch / invalid-size error. -/

/-- Conv2d with square kernel k and symmetric padding p: requires the
channel count to match in_channels and the padded extent to cover the
kernel; spatial size becomes H + 2p - k + 1. -/
def conv2dShape (in_channels out_channels k p : ℕ) (s : Shape) : Option Shape :=
  if s.C = in_channels ∧ k ≤ s.H + 2 * p ∧ k ≤ s.W + 2 * p then
    some ⟨s.B, out_channels, s.H + 2 * p + 1 - k, s.W + 2 * p + 1 - k⟩
  else
    none

/-- BatchNorm2d: requires the channel count to match num_features,
shape unchanged. -/
def batchNorm2dShape (num_features : ℕ) (s : Shape) : Option Shape :=
  if s.C = num_features then some s else none

/-- ReLU is elementwise: shape unchanged. -/
def reluShape (s : Shape) : Option Shape :=
  some s

/-- MaxPool2d / AvgPool2d with kernel k and stride k (floor mode):
requires each spatial extent to be at least k; spatial size is
floor-divided by k. -/
def pool2dShape (k : ℕ) (s : Shape) : Option Shape :=
  if k ≤ s.H ∧ k ≤ s.W then some ⟨s.B, s.C, s.H / k, s.W / k⟩ else none

/-- Upsample with scale_factor 2: doubles both spatial extents. -/
def upsample2Shape (s : Shape) : Option Shape :=
  some ⟨s.B, s.C, 2 * s.H, 2 * s.W⟩

/-- ConvTranspose2d with kernel 2 and stride 2: requires the channel
count to match in_channels; spatial size (H-1)*2 + 2 = 2H. -/
def convTranspose2dShape (in_channels out_channels : ℕ) (s : Shape) : Option Shape :=
  if s.C = in_channels then some ⟨s.B, out_channels, 2 * s.H, 2 * s.W⟩ else none

/-- Functional pad with amounts (left, right, top, bottom), possibly
negative (cropping): the new extents are H + top + bottom and
W + left + right, which must be nonnegative. -/
def padShape (l r t b : ℤ) (s : Shape) : Option Shape :=
  if 0 ≤ (s.H : ℤ) + t + b ∧ 0 ≤ (s.W : ℤ) + l + r then
    some ⟨s.B, s.C, ((s.H : ℤ) + t + b).toNat, ((s.W : ℤ) + l + r).toNat⟩
  else
    none

/-- Concatenation along the channel axis: batch and spatial extents
must agree; channel counts add. -/
def catShape (s1 s2 : Shape) : Option Shape :=
  if s1.B = s2.B ∧ s1.H = s2.H ∧ s1.W = s2.W then
    some ⟨s1.B, s1.C + s2.C, s1.H, s1.W⟩
  else
    none

/-- Shape behaviour of DoubleConv.forward: conv3x3 (pad 1), batch
norm, ReLU, conv3x3 (pad 1), batch norm, ReLU. -/
def DoubleConv.forwardShape (a : DCArch) (s : Shape) : Option Shape := do
  let s1 ← conv2dShape a.inC a.mid 3 1 s
  let s2 ← batchNorm2dShape a.mid s1
  let s3 ← reluShape s2
  let s4 ← conv2dShape a.mid a.outC 3 1 s3
  let s5 ← batchNorm2dShape a.outC s4
  reluShape s5

/-- Shape behaviour of Down.forward: MaxPool2d(2) then DoubleConv. -/
def Down.forwardShape (a : DownArch) (s : Shape) : Option Shape := do
  let s1 ← pool2dShape 2 s
  DoubleConv.forwardShape a.conv s1

/-- Shape behaviour of AvgDown.forward: AvgPool2d(2) then DoubleConv;
identical to Down.forwardShape because both poolings share the same
shape rule. -/
def AvgDown.forwardShape (a : DownArch) (s : Shape) : Option Shape := do
  let s1 ← pool2dShape 2 s
  DoubleConv.forwardShape a.conv s1

/-- Shape behaviour of Up.forward (model.py lines 69-77): upsample x1
(bilinear interpolation, or transposed convolution halving the channel
count), pad it by the split difference to x2's spatial size
(Python floor division, hence Int.fdiv), concatenate x2 first, then
DoubleConv. -/
def Up.forwardShape (a : UpArch) (s1 s2 : Shape) : Option Shape := do
  let u ← if a.bilinear then upsample2Shape s1
          else convTranspose2dShape a.inC (a.inC / 2) s1
  let diffY : ℤ := (s2.H : ℤ) - (u.H : ℤ)
  let diffX : ℤ := (s2.W : ℤ) - (u.W : ℤ)
  let p ← padShape (Int.fdiv diffX 2) (diffX - Int.fdiv diffX 2)
                   (Int.fdiv diffY 2) (diffY - Int.fdiv diffY 2) u
  let c ← catShape s2 p
  DoubleConv.forwardShape a.conv c

/-- Shape behaviour of OutConv.forward: 1x1 convolution then Tanh
(elementwise, shape preserved). -/
def OutConv.forwardShape (a : OutArch) (s : Shape) : Option Shape :=
  conv2dShape a.inC a.outC 1 0 s

/-- Shape behaviour of UNet.forward (model.py lines 110-133). -/
def UNet.forwardShape (A : UNetArch) (s : Shape) : Option Shape := do
  let x1 ← DoubleConv.forwardShape A.inc s
  let x2 ← Down.forwardShape A.down1 x1
  let x3 ← Down.forwardShape A.down2 x2
  let x4 ← Down.forwardShape A.down3 x3
  let x5 ← Down.forwardShape A.down4 x4
  let y1 ← Up.forwardShape A.up1 x5 x4
  let y2 ← Up.forwardShape A.up2 y1 x3
  let y3 ← Up.forwardShape A.up3 y2 x2
  let y4 ← Up.forwardShape A.up4 y3 x1
  OutConv.forwardShape A.outc y4

/-- Shape behaviour of AvgPoolUNet.forward (model.py lines 155-178):
textually the same pipeline with AvgDown stages. -/
def AvgPoolUNet.forwardShape (A : UNetArch) (s : Shape) : Option Shape := do
  let x1 ← DoubleConv.forwardShape A.inc s
  let x2 ← AvgDown.forwardShape A.down1 x1
  let x3 ← AvgDown.forwardShape A.down2 x2
  let x4 ← AvgDown.forwardShape A.down3 x3
  let x5 ← AvgDown.forwardShape A.down4 x4
  let y1 ← Up.forwardShape A.up1 x5 x4
  let y2 ← Up.forwardShape A.up2 y1 x3
  let y3 ← Up.forwardShape A.up3 y2 x2
  let y4 ← Up.forwardShape A.up4 y3 x1
  OutConv.forwardShape A.outc y4

/-! ## Python class machinery

AvgPoolUNet.__init__ (model.py line 138) calls super(UNet, self).__init__()
although AvgPoolUNet is declared as a subclass of nn.Module, not of UNet.
Python's super(type, obj) requires isinstance(obj, type). The class table
below is taken from the class declarations in model.py. -/

/-- The classes declared in model.py that take part in the super call,
plus the framework base class. -/
inductive PyClass where
  | module
  | unet
  | avgPoolUNet
deriving DecidableEq, Repr

/-- Subclass relation: the reflexive-transitive closure of the declared
bases (class UNet(nn.Module), class AvgPoolUNet(nn.Module)), enumerated
over the three classes. AvgPoolUNet is not a subclass of UNet. -/
def isSubclass (c d : PyClass) : Bool :=
  match c, d with
  | .module, .module => true
  | .unet, .unet => true
  | .avgPoolUNet, .avgPoolUNet => true
  | .unet, .module => true
  | .avgPoolUNet, .module => true
  | _, _ => false

/-- The runtime error relevant here. -/
inductive PyError where
  | typeError
deriving DecidableEq, Repr

/-- Python semantics of super(cls, self).__init__(): the two-argument
super requires isinstance(self, cls); otherwise it raises
TypeError (super(type, obj): obj must be an instance or subtype of type). -/
def superInit (cls selfClass : PyClass) : Except PyError Unit :=
  if isSubclass selfClass cls then Except.ok () else Except.error PyError.typeError

/-- UNet.__init__ as executed on an instance of class selfClass:
line 93 calls super(UNet, self).__init__(), then the layer wiring is
created. -/
def UNet.pyInit (selfClass : PyClass) (n_channels n_classes : ℕ) (bilinear : Bool) :
    Except PyError UNetArch := do
  let _ ← superInit PyClass.unet selfClass
  pure (UNet.mk n_channels n_classes bilinear)

/-- AvgPoolUNet.__init__ as executed on an instance of class selfClass:
line 138 calls super(UNet, self).__init__() — naming UNet, not
AvgPoolUNet — before any layer is created. -/
def AvgPoolUNet.pyInit (selfClass : PyClass) (n_channels n_classes : ℕ) (bilinear : Bool) :
    Except PyError UNetArch := do
  let _ ← superInit PyClass.unet selfClass
  pure (AvgPoolUNet.mkLayers n_channels n_classes bilinear)

/-- Evaluating the constructor call UNet(...): __init__ runs with self
an instance of class unet. -/
def UNet.construct (n_channels n_classes : ℕ) (bilinear : Bool) : Except PyError UNetArch :=
  UNet.pyInit PyClass.unet n_channels n_classes bilinear

/-- Evaluating the constructor call AvgPoolUNet(...): __init__ runs with
self an instance of class avgPoolUNet. -/
def AvgPoolUNet.construct (n_channels n_classes : ℕ) (bilinear : Bool) :
    Except PyError UNetArch :=
  AvgPoolUNet.pyInit PyClass.avgPoolUNet n_channels n_classes bilinear

/-- The self-test in the __main__ block (model.py lines 181-186):
AvgPoolUNet(n_channels=1, n_classes=1, bilinear=False) followed by a
forward pass on a random (1, 1, 100, 100) tensor; the construction step
already determines the outcome. -/
def mainSelfTest : Except PyError UNetArch :=
  AvgPoolUNet.construct 1 1 false

/-! ## Value and state semantics

Tensors over the reals. Each module maps (parameters, input) to
(output, parameters); batch normalization is the only stateful layer:
in training mode (the default for a freshly constructed module) its
forward pass updates the running statistics by an exponential moving
average, exactly as the framework does. -/

/-- A real-valued tensor: shape fields plus a total element function
(indices outside the shape are irrelevant). -/
structure Tensor where
  B : ℕ
  C : ℕ
  H : ℕ
  W : ℕ
  val : ℕ → ℕ → ℕ → ℕ → ℝ

/-- Read a tensor at integer spatial indices, zero outside the spatial
range: the semantics of zero padding. -/
noncomputable def Tensor.zval (x : Tensor) (b c : ℕ) (i j : ℤ) : ℝ :=
  if 0 ≤ i ∧ i < (x.H : ℤ) ∧ 0 ≤ j ∧ j < (x.W : ℤ) then x.val b c i.toNat j.toNat else 0

/-- Conv2d(in, out, kernel_size=3, padding=1, bias=False): 3x3
convolution with spatial zero padding 1; spatial size preserved. -/
noncomputable def conv3x3 (in_channels out_channels : ℕ)
    (weight : ℕ → ℕ → ℕ → ℕ → ℝ) (x : Tensor) : Tensor :=
  ⟨x.B, out_channels, x.H, x.W, fun b o i j =>
    ∑ c ∈ Finset.range in_channels, ∑ di ∈ Finset.range 3, ∑ dj ∈ Finset.range 3,
      weight o c di dj * x.zval b c ((i : ℤ) + (di : ℤ) - 1) ((j : ℤ) + (dj : ℤ) - 1)⟩

/-- State of one BatchNorm2d layer: affine parameters (weight γ and
bias β) and running statistics. -/
structure BNState where
  gamma : ℕ → ℝ
  beta : ℕ → ℝ
  running_mean : ℕ → ℝ
  running_var : ℕ → ℝ

/-- BatchNorm2d default eps. -/
noncomputable def bnEps : ℝ := 1 / 100000

/-- BatchNorm2d default momentum. -/
noncomputable def bnMomentum : ℝ := 1 / 10

/-- Per-channel mean over batch and spatial axes. -/
noncomputable def batchMean (x : Tensor) (c : ℕ) : ℝ :=
  (∑ b ∈ Finset.range x.B, ∑ i ∈ Finset.range x.H, ∑ j ∈ Finset.range x.W,
    x.val b c i j) / ((x.B * x.H * x.W : ℕ) : ℝ)

/-- Per-channel biased variance (used for normalization). -/
noncomputable def batchVar (x : Tensor) (c : ℕ) : ℝ :=
  (∑ b ∈ Finset.range x.B, ∑ i ∈ Finset.range x.H, ∑ j ∈ Finset.range x.W,
    (x.val b c i j - batchMean x c) ^ 2) / ((x.B * x.H * x.W : ℕ) : ℝ)

/-- Per-channel unbiased variance (used for the running-var update). -/
noncomputable def batchVarUnbiased (x : Tensor) (c : ℕ) : ℝ :=
  (∑ b ∈ Finset.range x.B, ∑ i ∈ Finset.range x.H, ∑ j ∈ Finset.range x.W,
    (x.val b c i j - batchMean x c) ^ 2) / (((x.B * x.H * x.W : ℕ) : ℝ) - 1)

/-- BatchNorm2d forward: in training mode it normalizes by batch
statistics and updates the running statistics by the exponential moving
average with the default momentum; in eval mode it normalizes by the
stored running statistics and leaves the state unchanged. -/
noncomputable def batchNorm2d (st : BNState) (training : Bool) (x : Tensor) :
    Tensor × BNState :=
  (⟨x.B, x.C, x.H, x.W, fun b c i j =>
      if training then
        st.gamma c * ((x.val b c i j - batchMean x c) /
          Real.sqrt (batchVar x c + bnEps)) + st.beta c
      else
        st.gamma c * ((x.val b c i j - st.running_mean c) /
          Real.sqrt (st.running_var c + bnEps)) + st.beta c⟩,
    if training then
      { st with
        running_mean := fun c =>
          (1 - bnMomentum) * st.running_mean c + bnMomentum * batchMean x c,
        running_var := fun c =>
          (1 - bnMomentum) * st.running_var c + bnMomentum * batchVarUnbiased x c }
    else st)

/-- Elementwise rectifier. -/
noncomputable def relu (x : Tensor) : Tensor :=
  ⟨x.B, x.C, x.H, x.W, fun b c i j => max (x.val b c i j) 0⟩

/-- Parameters of a DoubleConv block: two bias-free convolution kernels
and two batch-norm states. -/
structure DCParams where
  w1 : ℕ → ℕ → ℕ → ℕ → ℝ
  bn1 : BNState
  w2 : ℕ → ℕ → ℕ → ℕ → ℝ
  bn2 : BNState

/-- DoubleConv.forward: conv3x3, batch norm, ReLU, conv3x3, batch norm,
ReLU; returns the output and the parameters with updated batch-norm
states. -/
noncomputable def DoubleConv.forward (a : DCArch) (p : DCParams) (training : Bool)
    (x : Tensor) : Tensor × DCParams :=
  let y1 := conv3x3 a.inC a.mid p.w1 x
  let (y2, bn1') := batchNorm2d p.bn1 training y1
  let y3 := relu y2
  let y4 := conv3x3 a.mid a.outC p.w2 y3
  let (y5, bn2') := batchNorm2d p.bn2 training y4
  (relu y5, { p with bn1 := bn1', bn2 := bn2' })

/-- MaxPool2d(2): each output element is the maximum of the
corresponding 2x2 window; spatial extents floor-divided by 2. -/
noncomputable def maxPool2 (x : Tensor) : Tensor :=
  ⟨x.B, x.C, x.H / 2, x.W / 2, fun b c i j =>
    max (max (x.val b c (2 * i) (2 * j)) (x.val b c (2 * i) (2 * j + 1)))
      (max (x.val b c (2 * i + 1) (2 * j)) (x.val b c (2 * i + 1) (2 * j + 1)))⟩

/-- AvgPool2d(2): each output element is the mean of the corresponding
2x2 window. -/
noncomputable def avgPool2 (x : Tensor) : Tensor :=
  ⟨x.B, x.C, x.H / 2, x.W / 2, fun b c i j =>
    (x.val b c (2 * i) (2 * j) + x.val b c (2 * i) (2 * j + 1) +
      x.val b c (2 * i + 1) (2 * j) + x.val b c (2 * i + 1) (2 * j + 1)) / 4⟩

/-- Down.forward: max pooling strictly precedes the DoubleConv. -/
noncomputable def Down.forward (a : DownArch) (p : DCParams) (training : Bool)
    (x : Tensor) : Tensor × DCParams :=
  DoubleConv.forward a.conv p training (maxPool2 x)

/-- AvgDown.forward: average pooling strictly precedes the DoubleConv. -/
noncomputable def AvgDown.forward (a : DownArch) (p : DCParams) (training : Bool)
    (x : Tensor) : Tensor × DCParams :=
  DoubleConv.forward a.conv p training (avgPool2 x)

/-- Source coordinate of output index m for factor-2 bilinear
upsampling with align_corners=True over an axis of input length n:
m * (n-1) / (2n-1), computed in ℚ. -/
def srcCoord (n m : ℕ) : ℚ :=
  ((n - 1 : ℕ) : ℚ) * (m : ℚ) / ((2 * n - 1 : ℕ) : ℚ)

/-- Upsample(scale_factor=2, mode=bilinear, align_corners=True):
corner-aligned bilinear interpolation, no learned parameters, channel
count preserved, both spatial extents doubled. -/
noncomputable def upsampleBilinear2 (x : Tensor) : Tensor :=
  ⟨x.B, x.C, 2 * x.H, 2 * x.W, fun b c i j =>
    let sy := srcCoord x.H i
    let sx := srcCoord x.W j
    let i0 := (Rat.floor sy).toNat
    let j0 := (Rat.floor sx).toNat
    let ty : ℝ := ((sy - (i0 : ℚ)) : ℚ)
    let tx : ℝ := ((sx - (j0 : ℚ)) : ℚ)
    (1 - ty) * (1 - tx) * x.val b c i0 j0 + (1 - ty) * tx * x.val b c i0 (j0 + 1) +
      ty * (1 - tx) * x.val b c (i0 + 1) j0 + ty * tx * x.val b c (i0 + 1) (j0 + 1)⟩

/-- ConvTranspose2d(in, in / 2, kernel_size=2, stride=2): stride equals
kernel size, so each output position receives exactly one kernel tap;
channel count halves, spatial extents double. Weight layout is
(in_channels, out_channels, kH, kW); bias present by default. -/
noncomputable def convTranspose2 (in_channels : ℕ) (weight : ℕ → ℕ → ℕ → ℕ → ℝ)
    (bias : ℕ → ℝ) (x : Tensor) : Tensor :=
  ⟨x.B, in_channels / 2, 2 * x.H, 2 * x.W, fun b o i j =>
    bias o + ∑ c ∈ Finset.range in_channels,
      weight c o (i % 2) (j % 2) * x.val b c (i / 2) (j / 2)⟩

/-- Functional zero pad with amounts (left, right, top, bottom),
possibly negative (cropping): the result reads the source shifted by
the leading amounts, zero outside. -/
noncomputable def padTensor (l r t bo : ℤ) (x : Tensor) : Tensor :=
  ⟨x.B, x.C, ((x.H : ℤ) + t + bo).toNat, ((x.W : ℤ) + l + r).toNat, fun b c i j =>
    x.zval b c ((i : ℤ) - t) ((j : ℤ) - l)⟩

/-- torch.cat along dim=1: the first argument's channels come first. -/
noncomputable def catChannels (x y : Tensor) : Tensor :=
  ⟨x.B, x.C + y.C, x.H, x.W, fun b c i j =>
    if c < x.C then x.val b c i j else y.val b (c - x.C) i j⟩

/-- Parameters of an Up block: the transposed-convolution weight and
bias (unused when bilinear) and the DoubleConv parameters. -/
structure UpParams where
  upw : ℕ → ℕ → ℕ → ℕ → ℝ
  upb : ℕ → ℝ
  conv : DCParams

/-- The upsampling step of Up.forward (model.py line 70, x1 = self.up(x1)):
bilinear corner-aligned interpolation, or the learned transposed
convolution that halves the channel count. -/
noncomputable def Up.upsampled (a : UpArch) (p : UpParams) (x1 : Tensor) : Tensor :=
  if a.bilinear then upsampleBilinear2 x1 else convTranspose2 a.inC p.upw p.upb x1

/-- The padding step of Up.forward (model.py lines 72-75): the spatial
differences diffY, diffX between x2 and the upsampled x1 are split by
Python floor division (hence Int.fdiv) between the leading and trailing
edges. -/
noncomputable def Up.padded (a : UpArch) (p : UpParams) (x1 x2 : Tensor) : Tensor :=
  let x1u := Up.upsampled a p x1
  let diffY : ℤ := (x2.H : ℤ) - (x1u.H : ℤ)
  let diffX : ℤ := (x2.W : ℤ) - (x1u.W : ℤ)
  padTensor (Int.fdiv diffX 2) (diffX - Int.fdiv diffX 2)
    (Int.fdiv diffY 2) (diffY - Int.fdiv diffY 2) x1u

/-- Up.forward (model.py lines 69-77): upsample x1, pad it by the split
difference to x2's spatial size, concatenate with x2 first, apply
DoubleConv. -/
noncomputable def Up.forward (a : UpArch) (p : UpParams) (training : Bool)
    (x1 x2 : Tensor) : Tensor × UpParams :=
  let xc := catChannels x2 (Up.padded a p x1 x2)
  let (y, c') := DoubleConv.forward a.conv p.conv training xc
  (y, { p with conv := c' })

/-- OutConv.forward: 1x1 convolution (with bias) followed by Tanh. -/
noncomputable def OutConv.forward (a : OutArch) (weight : ℕ → ℕ → ℝ) (bias : ℕ → ℝ)
    (x : Tensor) : Tensor :=
  ⟨x.B, a.outC, x.H, x.W, fun b o i j =>
    Real.tanh (bias o + ∑ c ∈ Finset.range a.inC, weight o c * x.val b c i j)⟩

/-- All parameters and batch-norm states of the network. -/
structure UNetParams where
  inc : DCParams
  down1 : DCParams
  down2 : DCParams
  down3 : DCParams
  down4 : DCParams
  up1 : UpParams
  up2 : UpParams
  up3 : UpParams
  up4 : UpParams
  outw : ℕ → ℕ → ℝ
  outb : ℕ → ℝ

/-- UNet.forward (model.py lines 110-133): encoder, four skip-connected
decoder stages, final projection; returns the logits and the parameters
with updated batch-norm states. -/
noncomputable def UNet.forward (A : UNetArch) (P : UNetParams) (training : Bool)
    (x : Tensor) : Tensor × UNetParams :=
  let (x1, q1) := DoubleConv.forward A.inc P.inc training x
  let (x2, q2) := Down.forward A.down1 P.down1 training x1
  let (x3, q3) := Down.forward A.down2 P.down2 training x2
  let (x4, q4) := Down.forward A.down3 P.down3 training x3
  let (x5, q5) := Down.forward A.down4 P.down4 training x4
  let (u1, r1) := Up.forward A.up1 P.up1 training x5 x4
  let (u2, r2) := Up.forward A.up2 P.up2 training u1 x3
  let (u3, r3) := Up.forward A.up3 P.up3 training u2 x2
  let (u4, r4) := Up.forward A.up4 P.up4 training u3 x1
  let logits := OutConv.forward A.outc P.outw P.outb u4
  (logits,
    { inc := q1, down1 := q2, down2 := q3, down3 := q4, down4 := q5,
      up1 := r1, up2 := r2, up3 := r3, up4 := r4, outw := P.outw, outb := P.outb })

/-- AvgPoolUNet.forward (model.py lines 155-178): the same pipeline
with AvgDown stages. -/
noncomputable def AvgPoolUNet.forward (A : UNetArch) (P : UNetParams) (training : Bool)
    (x : Tensor) : Tensor × UNetParams :=
  let (x1, q1) := DoubleConv.forward A.inc P.inc training x
  let (x2, q2) := AvgDown.forward A.down1 P.down1 training x1
  let (x3, q3) := AvgDown.forward A.down2 P.down2 training x2
  let (x4, q4) := AvgDown.forward A.down3 P.down3 training x3
  let (x5, q5) := AvgDown.forward A.down4 P.down4 training x4
  let (u1, r1) := Up.forward A.up1 P.up1 training x5 x4
  let (u2, r2) := Up.forward A.up2 P.up2 training u1 x3
  let (u3, r3) := Up.forward A.up3 P.up3 training u2 x2
  let (u4, r4) := Up.forward A.up4 P.up4 training u3 x1
  let logits := OutConv.forward A.outc P.outw P.outb u4
  (logits,
    { inc := q1, down1 := q2, down2 := q3, down3 := q4, down4 := q5,
      up1 := r1, up2 := r2, up3 := r3, up4 := r4, outw := P.outw, outb := P.outb })

/-- Clearing the running statistics of a batch-norm state; two
parameter records agree on everything the optimizer owns (weights,
biases, affine parameters) exactly when their cleared forms agree. -/
def BNState.clearStats (st : BNState) : BNState :=
  { st with running_mean := fun _ => 0, running_var := fun _ => 0 }

/-- Clearing the running statistics of a DoubleConv parameter record. -/
def DCParams.clearStats (p : DCParams) : DCParams :=
  { p with bn1 := p.bn1.clearStats, bn2 := p.bn2.clearStats }

/-- Clearing the running statistics of an Up parameter record. -/
def UpParams.clearStats (p : UpParams) : UpParams :=
  { p with conv := p.conv.clearStats }

/-- Clearing all running statistics of the network parameters. -/
def UNetParams.clearStats (P : UNetParams) : UNetParams :=
  { P with
    inc := P.inc.clearStats, down1 := P.down1.clearStats, down2 := P.down2.clearStats,
    down3 := P.down3.clearStats, down4 := P.down4.clearStats,
    up1 := P.up1.clearStats, up2 := P.up2.clearStats, up3 := P.up3.clearStats,
    up4 := P.up4.clearStats }

/-- A concrete all-zero input tensor of shape (1, 1, 16, 16). -/
noncomputable def zeroTensor16 : Tensor :=
  ⟨1, 1, 16, 16, fun _ _ _ _ => 0⟩

/-- A batch-norm state with all entries zero. -/
noncomputable def zeroBN : BNState :=
  ⟨fun _ => 0, fun _ => 0, fun _ => 0, fun _ => 0⟩

/-- DoubleConv parameters with all entries zero. -/
noncomputable def zeroDC : DCParams :=
  ⟨fun _ _ _ _ => 0, zeroBN, fun _ _ _ _ => 0, zeroBN⟩

/-- Up parameters with all entries zero. -/
noncomputable def zeroUp : UpParams :=
  ⟨fun _ _ _ _ => 0, fun _ => 0, zeroDC⟩

/-- Network parameters with all entries zero. -/
noncomputable def zeroUNetParams : UNetParams :=
  ⟨zeroDC, zeroDC, zeroDC, zeroDC, zeroDC, zeroUp, zeroUp, zeroUp, zeroUp,
    fun _ _ => 0, fun _ => 0⟩

/-- Network parameters that are all zero except that the stem's first
batch-norm running mean is the constant 1. -/
noncomputable def oneRMParams : UNetParams :=
  { zeroUNetParams with
    inc := { zeroDC with bn1 := { zeroBN with running_mean := fun _ => 1 } } }

/-! ## Stage lemmas for the shape semantics -/

theorem conv3x3Shape_ok (i o b h w : ℕ) (hH : 1 ≤ h) (hW : 1 ≤ w) :
    conv2dShape i o 3 1 ⟨b, i, h, w⟩ = some ⟨b, o, h, w⟩ := by
  dsimp only [conv2dShape]
  rw [if_pos ⟨rfl, by omega, by omega⟩]
  have hh : h + 2 * 1 + 1 - 3 = h := by omega
  have hw : w + 2 * 1 + 1 - 3 = w := by omega
  rw [hh, hw]

theorem conv1x1Shape_ok (i o b h w : ℕ) (hH : 1 ≤ h) (hW : 1 ≤ w) :
    conv2dShape i o 1 0 ⟨b, i, h, w⟩ = some ⟨b, o, h, w⟩ := by
  dsimp only [conv2dShape]
  rw [if_pos ⟨rfl, by omega, by omega⟩]
  have hh : h + 2 * 0 + 1 - 1 = h := by omega
  have hw : w + 2 * 0 + 1 - 1 = w := by omega
  rw [hh, hw]

theorem batchNorm2dShape_ok (f b h w : ℕ) :
    batchNorm2dShape f ⟨b, f, h, w⟩ = some ⟨b, f, h, w⟩ := by
  dsimp only [batchNorm2dShape]
  rw [if_pos rfl]

theorem doubleConvShape_ok (a : DCArch) (b c h w : ℕ) (hC : c = a.inC)
    (hH : 1 ≤ h) (hW : 1 ≤ w) :
    DoubleConv.forwardShape a ⟨b, c, h, w⟩ = some ⟨b, a.outC, h, w⟩ := by
  subst hC
  unfold DoubleConv.forwardShape
  rw [conv3x3Shape_ok a.inC a.mid b h w hH hW]
  simp only [Option.bind_eq_bind, Option.some_bind]
  rw [batchNorm2dShape_ok a.mid b h w]
  simp only [Option.bind_eq_bind, Option.some_bind, reluShape]
  rw [conv3x3Shape_ok a.mid a.outC b h w hH hW]
  simp only [Option.bind_eq_bind, Option.some_bind]
  rw [batchNorm2dShape_ok a.outC b h w]
  rfl

theorem pool2Shape_ok (b c h w : ℕ) (hH : 2 ≤ h) (hW : 2 ≤ w) :
    pool2dShape 2 ⟨b, c, h, w⟩ = some ⟨b, c, h / 2, w / 2⟩ := by
  dsimp only [pool2dShape]
  rw [if_pos ⟨hH, hW⟩]

theorem downShape_ok (a : DownArch) (b c h w : ℕ) (hC : c = a.conv.inC)
    (hH : 2 ≤ h) (hW : 2 ≤ w) :
    Down.forwardShape a ⟨b, c, h, w⟩ = some ⟨b, a.conv.outC, h / 2, w / 2⟩ := by
  unfold Down.forwardShape
  rw [pool2Shape_ok b c h w hH hW]
  simp only [Option.bind_eq_bind, Option.some_bind]
  exact doubleConvShape_ok a.conv b c (h / 2) (w / 2) hC
    (by omega) (by omega)

theorem avgDownShape_ok (a : DownArch) (b c h w : ℕ) (hC : c = a.conv.inC)
    (hH : 2 ≤ h) (hW : 2 ≤ w) :
    AvgDown.forwardShape a ⟨b, c, h, w⟩ = some ⟨b, a.conv.outC, h / 2, w / 2⟩ := by
  unfold AvgDown.forwardShape
  rw [pool2Shape_ok b c h w hH hW]
  simp only [Option.bind_eq_bind, Option.some_bind]
  exact doubleConvShape_ok a.conv b c (h / 2) (w / 2) hC
    (by omega) (by omega)

theorem padShape_to_target (tH tW : ℕ) (l r top bot : ℤ) (sB sC sH sW : ℕ)
    (hY : top + bot = (tH : ℤ) - (sH : ℤ))
    (hX : l + r = (tW : ℤ) - (sW : ℤ)) :
    padShape l r top bot ⟨sB, sC, sH, sW⟩ = some ⟨sB, sC, tH, tW⟩ := by
  dsimp only [padShape]
  rw [if_pos ⟨by omega, by omega⟩]
  have hh : ((sH : ℤ) + top + bot).toNat = tH := by omega
  have hw : ((sW : ℤ) + l + r).toNat = tW := by omega
  rw [hh, hw]

theorem catShape_ok (b cA cB h w : ℕ) :
    catShape ⟨b, cA, h, w⟩ ⟨b, cB, h, w⟩ = some ⟨b, cA + cB, h, w⟩ := by
  dsimp only [catShape]
  rw [if_pos ⟨rfl, rfl, rfl⟩]

/-- An Up stage, fed a decoder tensor and a skip tensor from the same
batch, always recovers exactly the skip tensor's spatial size: the
upsampled tensor is padded (or cropped) by the split difference. -/
theorem upShape_ok (a : UpArch) (b c1 h1 w1 c2 h2 w2 : ℕ)
    (hC : (if a.bilinear then c1 else a.inC / 2) + c2 = a.conv.inC)
    (hCt : a.bilinear = false → c1 = a.inC)
    (hH : 1 ≤ h2) (hW : 1 ≤ w2) :
    Up.forwardShape a ⟨b, c1, h1, w1⟩ ⟨b, c2, h2, w2⟩ =
      some ⟨b, a.conv.outC, h2, w2⟩ := by
  obtain ⟨inC, outC, bil, conv⟩ := a
  cases bil with
  | true =>
      have hC2 : c1 + c2 = conv.inC := by simpa using hC
      unfold Up.forwardShape
      simp only
      rw [if_pos True.intro]
      simp only [upsample2Shape, Option.bind_eq_bind, Option.some_bind]
      rw [padShape_to_target h2 w2 _ _ _ _ b c1 (2 * h1) (2 * w1) (by omega) (by omega)]
      simp only [Option.bind_eq_bind, Option.some_bind]
      rw [catShape_ok b c2 c1 h2 w2]
      simp only [Option.bind_eq_bind, Option.some_bind]
      rw [doubleConvShape_ok conv b (c2 + c1) h2 w2 (by omega) hH hW]
  | false =>
      have hCt2 : c1 = inC := hCt rfl
      subst hCt2
      have hC2 : c1 / 2 + c2 = conv.inC := by simpa using hC
      unfold Up.forwardShape
      simp only
      rw [if_neg (show ¬(false = true) by decide)]
      dsimp only [convTranspose2dShape]
      rw [if_pos rfl]
      simp only [Option.bind_eq_bind, Option.some_bind]
      rw [padShape_to_target h2 w2 _ _ _ _ b (c1 / 2) (2 * h1) (2 * w1) (by omega) (by omega)]
      simp only [Option.bind_eq_bind, Option.some_bind]
      rw [catShape_ok b c2 (c1 / 2) h2 w2]
      simp only [Option.bind_eq_bind, Option.some_bind]
      rw [doubleConvShape_ok conv b (c2 + c1 / 2) h2 w2 (by omega) hH hW]

theorem outConvShape_ok (i o b h w : ℕ)
    (hH : 1 ≤ h) (hW : 1 ≤ w) :
    OutConv.forwardShape ⟨i, o⟩ ⟨b, i, h, w⟩ = some ⟨b, o, h, w⟩ :=
  conv1x1Shape_ok i o b h w hH hW

/-- The spatial round-trip of the whole network, for any batch size and
any spatial extents at least 16 (so each of the four poolings has at
least two rows and columns to consume). -/
theorem unetShape_ok (nch ncls : ℕ) (bil : Bool) (B H W : ℕ)
    (hH : 16 ≤ H) (hW : 16 ≤ W) :
    UNet.forwardShape (UNet.mk nch ncls bil) ⟨B, nch, H, W⟩ =
      some ⟨B, ncls, H, W⟩ := by
  cases bil with
  | false =>
      have hA : UNet.mk nch ncls false =
          ⟨nch, ncls, false, ⟨nch, 64, 64⟩,
            ⟨⟨64, 128, 128⟩⟩, ⟨⟨128, 256, 256⟩⟩, ⟨⟨256, 512, 512⟩⟩, ⟨⟨512, 1024, 1024⟩⟩,
            ⟨1024, 512, false, ⟨1024, 512, 512⟩⟩, ⟨512, 256, false, ⟨512, 256, 256⟩⟩,
            ⟨256, 128, false, ⟨256, 128, 128⟩⟩, ⟨128, 64, false, ⟨128, 64, 64⟩⟩,
            ⟨64, ncls⟩⟩ := rfl
      rw [hA]
      unfold UNet.forwardShape
      simp only
      rw [doubleConvShape_ok ⟨nch, 64, 64⟩ B nch H W rfl (by omega) (by omega)]
      simp only [Option.bind_eq_bind, Option.some_bind]
      rw [downShape_ok ⟨⟨64, 128, 128⟩⟩ B 64 H W rfl (by omega) (by omega)]
      simp only [Option.bind_eq_bind, Option.some_bind]
      rw [downShape_ok ⟨⟨128, 256, 256⟩⟩ B 128 (H / 2) (W / 2) rfl
        (by omega) (by omega)]
      simp only [Option.bind_eq_bind, Option.some_bind]
      rw [downShape_ok ⟨⟨256, 512, 512⟩⟩ B 256 (H / 2 / 2) (W / 2 / 2) rfl
        (by omega) (by omega)]
      simp only [Option.bind_eq_bind, Option.some_bind]
      rw [downShape_ok ⟨⟨512, 1024, 1024⟩⟩ B 512 (H / 2 / 2 / 2) (W / 2 / 2 / 2) rfl
        (by omega) (by omega)]
      simp only [Option.bind_eq_bind, Option.some_bind]
      rw [upShape_ok ⟨1024, 512, false, ⟨1024, 512, 512⟩⟩ B
        1024 (H / 2 / 2 / 2 / 2) (W / 2 / 2 / 2 / 2) 512 (H / 2 / 2 / 2) (W / 2 / 2 / 2)
        (by decide) (by decide) (by omega) (by omega)]
      simp only [Option.bind_eq_bind, Option.some_bind]
      rw [upShape_ok ⟨512, 256, false, ⟨512, 256, 256⟩⟩ B
        512 (H / 2 / 2 / 2) (W / 2 / 2 / 2) 256 (H / 2 / 2) (W / 2 / 2)
        (by decide) (by decide) (by omega) (by omega)]
      simp only [Option.bind_eq_bind, Option.some_bind]
      rw [upShape_ok ⟨256, 128, false, ⟨256, 128, 128⟩⟩ B
        256 (H / 2 / 2) (W / 2 / 2) 128 (H / 2) (W / 2)
        (by decide) (by decide) (by omega) (by omega)]
      simp only [Option.bind_eq_bind, Option.some_bind]
      rw [upShape_ok ⟨128, 64, false, ⟨128, 64, 64⟩⟩ B
        128 (H / 2) (W / 2) 64 H W
        (by decide) (by decide) (by omega) (by omega)]
      simp only [Option.bind_eq_bind, Option.some_bind]
      rw [outConvShape_ok 64 ncls B H W (by omega) (by omega)]
  | true =>
      have hA : UNet.mk nch ncls true =
          ⟨nch, ncls, true, ⟨nch, 64, 64⟩,
            ⟨⟨64, 128, 128⟩⟩, ⟨⟨128, 256, 256⟩⟩, ⟨⟨256, 512, 512⟩⟩, ⟨⟨512, 512, 512⟩⟩,
            ⟨1024, 256, true, ⟨1024, 512, 256⟩⟩, ⟨512, 128, true, ⟨512, 256, 128⟩⟩,
            ⟨256, 64, true, ⟨256, 128, 64⟩⟩, ⟨128, 64, true, ⟨128, 64, 64⟩⟩,
            ⟨64, ncls⟩⟩ := rfl
      rw [hA]
      unfold UNet.forwardShape
      simp only
      rw [doubleConvShape_ok ⟨nch, 64, 64⟩ B nch H W rfl (by omega) (by omega)]
      simp only [Option.bind_eq_bind, Option.some_bind]
      rw [downShape_ok ⟨⟨64, 128, 128⟩⟩ B 64 H W rfl (by omega) (by omega)]
      simp only [Option.bind_eq_bind, Option.some_bind]
      rw [downShape_ok ⟨⟨128, 256, 256⟩⟩ B 128 (H / 2) (W / 2) rfl
        (by omega) (by omega)]
      simp only [Option.bind_eq_bind, Option.some_bind]
      rw [downShape_ok ⟨⟨256, 512, 512⟩⟩ B 256 (H / 2 / 2) (W / 2 / 2) rfl
        (by omega) (by omega)]
      simp only [Option.bind_eq_bind, Option.some_bind]
      rw [downShape_ok ⟨⟨512, 512, 512⟩⟩ B 512 (H / 2 / 2 / 2) (W / 2 / 2 / 2) rfl
        (by omega) (by omega)]
      simp only [Option.bind_eq_bind, Option.some_bind]
      rw [upShape_ok ⟨1024, 256, true, ⟨1024, 512, 256⟩⟩ B
        512 (H / 2 / 2 / 2 / 2) (W / 2 / 2 / 2 / 2) 512 (H / 2 / 2 / 2) (W / 2 / 2 / 2)
        (by decide) (by decide) (by omega) (by omega)]
      simp only [Option.bind_eq_bind, Option.some_bind]
      rw [upShape_ok ⟨512, 128, true, ⟨512, 256, 128⟩⟩ B
        256 (H / 2 / 2 / 2) (W / 2 / 2 / 2) 256 (H / 2 / 2) (W / 2 / 2)
        (by decide) (by decide) (by omega) (by omega)]
      simp only [Option.bind_eq_bind, Option.some_bind]
      rw [upShape_ok ⟨256, 64, true, ⟨256, 128, 64⟩⟩ B
        128 (H / 2 / 2) (W / 2 / 2) 128 (H / 2) (W / 2)
        (by decide) (by decide) (by omega) (by omega)]
      simp only [Option.bind_eq_bind, Option.some_bind]
      rw [upShape_ok ⟨128, 64, true, ⟨128, 64, 64⟩⟩ B
        64 (H / 2) (W / 2) 64 H W
        (by decide) (by decide) (by omega) (by omega)]
      simp only [Option.bind_eq_bind, Option.some_bind]
      rw [outConvShape_ok 64 ncls B H W (by omega) (by omega)]

/-- C1: for every valid configuration (n_channels positive, n_classes
positive, bilinear boolean) and every input tensor of shape
(B, n_channels, H, W) with H, W at least 16 (odd sizes such as 101
included), UNet.forward produces an output of shape
(B, n_classes, H, W): the output spatial size equals the input spatial
size. -/
theorem unet_forward_spatial_roundtrip (n_channels n_classes : ℕ) (bilinear : Bool)
    (B H W : ℕ) (hch : 0 < n_channels) (hcls : 0 < n_classes)
    (hH : 16 ≤ H) (hW : 16 ≤ W) :
    UNet.forwardShape (UNet.mk n_channels n_classes bilinear) ⟨B, n_channels, H, W⟩ =
      some ⟨B, n_classes, H, W⟩ :=
  unetShape_ok n_channels n_classes bilinear B H W hH hW

/-- Witness for C1 at the odd spatial size 101 and at the spec's two
concrete scenarios. -/
theorem unet_forward_spatial_roundtrip_witness :
    UNet.forwardShape (UNet.mk 1 1 false) ⟨1, 1, 101, 101⟩ = some ⟨1, 1, 101, 101⟩ ∧
      UNet.forwardShape (UNet.mk 3 2 true) ⟨2, 3, 64, 64⟩ = some ⟨2, 2, 64, 64⟩ :=
  ⟨unet_forward_spatial_roundtrip 1 1 false 1 101 101 (by decide) (by decide)
      (by decide) (by decide),
    unet_forward_spatial_roundtrip 3 2 true 2 64 64 (by decide) (by decide)
      (by decide) (by decide)⟩

/-! ## Claims about construction and wiring -/

/-- C3: for every choice of constructor arguments, constructing an
AvgPoolUNet raises a TypeError at the super(UNet, self) call, before
any layer is created, because an AvgPoolUNet instance is not an
instance of UNet; no AvgPoolUNet instance can ever be created. A UNet
constructed the same way succeeds, confirming that the failure is the
class mismatch and nothing else. -/
theorem avgPoolUNet_construct_raises_type_error
    (n_channels n_classes : ℕ) (bilinear : Bool) :
    AvgPoolUNet.construct n_channels n_classes bilinear =
        Except.error PyError.typeError ∧
      UNet.construct n_channels n_classes bilinear =
        Except.ok (UNet.mk n_channels n_classes bilinear) :=
  ⟨rfl, rfl⟩

/-- C2: the repository's own self-test input (AvgPoolUNet with
n_channels=1, n_classes=1, bilinear=False, model.py line 183) does not
produce a network at all: construction raises TypeError, so the claimed
shape agreement between AvgPoolUNet and UNet can never be observed. -/
theorem avgPoolUNet_main_selftest_fails :
    mainSelfTest = Except.error PyError.typeError :=
  rfl

/-- C6: the channel schedule wired by UNet.__init__: the stem produces
64 channels; the four Down stages produce 128, 256, 512 and 1024
channels when bilinear is false; when bilinear is true the bottleneck
Down stage produces 512 and the first three Up stages' output widths
are halved to 256, 128, 64; the fourth Up stage produces 64 in both
modes; OutConv maps 64 channels to n_classes. -/
theorem unet_channel_schedule (n_channels n_classes : ℕ) :
    ((UNet.mk n_channels n_classes false).inc.outC = 64 ∧
      (UNet.mk n_channels n_classes false).down1.conv.outC = 128 ∧
      (UNet.mk n_channels n_classes false).down2.conv.outC = 256 ∧
      (UNet.mk n_channels n_classes false).down3.conv.outC = 512 ∧
      (UNet.mk n_channels n_classes false).down4.conv.outC = 1024 ∧
      (UNet.mk n_channels n_classes false).up1.outC = 512 ∧
      (UNet.mk n_channels n_classes false).up2.outC = 256 ∧
      (UNet.mk n_channels n_classes false).up3.outC = 128 ∧
      (UNet.mk n_channels n_classes false).up4.outC = 64 ∧
      (UNet.mk n_channels n_classes false).outc.inC = 64 ∧
      (UNet.mk n_channels n_classes false).outc.outC = n_classes) ∧
    ((UNet.mk n_channels n_classes true).inc.outC = 64 ∧
      (UNet.mk n_channels n_classes true).down1.conv.outC = 128 ∧
      (UNet.mk n_channels n_classes true).down2.conv.outC = 256 ∧
      (UNet.mk n_channels n_classes true).down3.conv.outC = 512 ∧
      (UNet.mk n_channels n_classes true).down4.conv.outC = 512 ∧
      (UNet.mk n_channels n_classes true).up1.outC = 256 ∧
      (UNet.mk n_channels n_classes true).up2.outC = 128 ∧
      (UNet.mk n_channels n_classes true).up3.outC = 64 ∧
      (UNet.mk n_channels n_classes true).up4.outC = 64 ∧
      (UNet.mk n_channels n_classes true).outc.inC = 64 ∧
      (UNet.mk n_channels n_classes true).outc.outC = n_classes) :=
  ⟨⟨rfl, rfl, rfl, rfl, rfl, rfl, rfl, rfl, rfl, rfl, rfl⟩,
    ⟨rfl, rfl, rfl, rfl, rfl, rfl, rfl, rfl, rfl, rfl, rfl⟩⟩

/-- C8: calling UNet.forward with an input whose channel count
disagrees with the configured n_channels fails at the first
incompatible operator — the stem DoubleConv's first convolution — with
a shape-mismatch error from the tensor runtime, and the failure
propagates uncaught through the whole forward pass: no stage catches,
retries, or recovers from it. -/
theorem unet_forward_channel_mismatch_fails
    (n_channels n_classes : ℕ) (bilinear : Bool) (s : Shape)
    (hC : s.C ≠ n_channels) :
    conv2dShape n_channels 64 3 1 s = none ∧
      UNet.forwardShape (UNet.mk n_channels n_classes bilinear) s = none := by
  have hcond : ¬(s.C = n_channels ∧ 3 ≤ s.H + 2 * 1 ∧ 3 ≤ s.W + 2 * 1) :=
    fun hcon => hC hcon.1
  have h1 : conv2dShape n_channels 64 3 1 s = none := by
    unfold conv2dShape
    rw [if_neg hcond]
  refine ⟨h1, ?_⟩
  unfold UNet.forwardShape
  simp only [UNet.mk, DoubleConv.mk, DoubleConv.forwardShape, h1,
    Option.bind_eq_bind, Option.none_bind]

/-- Witness for C8: input with 2 channels against a model configured
for 1 channel. -/
theorem unet_forward_channel_mismatch_fails_witness :
    (Shape.C ⟨1, 2, 16, 16⟩ ≠ 1) ∧
      (conv2dShape 1 64 3 1 ⟨1, 2, 16, 16⟩ = none ∧
        UNet.forwardShape (UNet.mk 1 1 false) ⟨1, 2, 16, 16⟩ = none) :=
  ⟨by decide, unet_forward_channel_mismatch_fails 1 1 false ⟨1, 2, 16, 16⟩ (by decide)⟩

/-! ## Claims about values and state -/

theorem tanh_mem_openIoo (y : ℝ) : -1 < Real.tanh y ∧ Real.tanh y < 1 := by
  constructor
  · have h := Real.sinh_lt_cosh (-y)
    rw [Real.sinh_neg, Real.cosh_neg] at h
    rw [Real.tanh_eq_sinh_div_cosh, lt_div_iff₀ (Real.cosh_pos y)]
    linarith
  · rw [Real.tanh_eq_sinh_div_cosh, div_lt_one (Real.cosh_pos y)]
    exact Real.sinh_lt_cosh y

/-- C5: every element of the tensor returned by OutConv.forward, and
hence every element of the final output of UNet.forward, lies strictly
inside the open interval (-1, 1), for every input tensor and every
parameter state (the final nonlinearity is tanh). -/
theorem outconv_unet_output_strictly_bounded :
    (∀ (a : OutArch) (w : ℕ → ℕ → ℝ) (bias : ℕ → ℝ) (x : Tensor) (b o i j : ℕ),
        -1 < (OutConv.forward a w bias x).val b o i j ∧
          (OutConv.forward a w bias x).val b o i j < 1) ∧
    (∀ (A : UNetArch) (P : UNetParams) (training : Bool) (x : Tensor) (b o i j : ℕ),
        -1 < (UNet.forward A P training x).1.val b o i j ∧
          (UNet.forward A P training x).1.val b o i j < 1) := by
  constructor
  · intro a w bias x b o i j
    exact tanh_mem_openIoo _
  · intro A P training x b o i j
    exact tanh_mem_openIoo _

/-- C9: UNet.forward is deterministic: with the same parameter state
and equal input tensors the forward pass produces equal results, in
particular element-wise identical output tensors; the embedding is a
pure function of parameters and input, with no hidden state or
randomness. -/
theorem unet_forward_deterministic (A : UNetArch) (P : UNetParams) (training : Bool)
    (x x' : Tensor) (h : x = x') :
    UNet.forward A P training x = UNet.forward A P training x' ∧
      ∀ b c i j, (UNet.forward A P training x).1.val b c i j =
        (UNet.forward A P training x').1.val b c i j := by
  subst h
  exact ⟨rfl, fun _ _ _ _ => rfl⟩

/-- Witness for C9 at a concrete configuration, parameter state and
input. -/
theorem unet_forward_deterministic_witness :
    UNet.forward (UNet.mk 1 1 false) zeroUNetParams true zeroTensor16 =
      UNet.forward (UNet.mk 1 1 false) zeroUNetParams true zeroTensor16 :=
  (unet_forward_deterministic (UNet.mk 1 1 false) zeroUNetParams true
    zeroTensor16 zeroTensor16 rfl).1

/-- C7: Down.forward and AvgDown.forward both produce C_out channels at
spatial size (H / 2, W / 2); in both, pooling strictly precedes the
DoubleConv; max pooling propagates the maximum of each 2x2 window (the
output element is one of the four window elements and bounds all of
them from above), while average pooling propagates the window mean. -/
theorem down_avgdown_halve_and_pool_before_conv
    (a : DownArch) (p : DCParams) (training : Bool) (x : Tensor) :
    ((Down.forward a p training x).1.C = a.conv.outC ∧
      (Down.forward a p training x).1.H = x.H / 2 ∧
      (Down.forward a p training x).1.W = x.W / 2) ∧
    ((AvgDown.forward a p training x).1.C = a.conv.outC ∧
      (AvgDown.forward a p training x).1.H = x.H / 2 ∧
      (AvgDown.forward a p training x).1.W = x.W / 2) ∧
    Down.forward a p training x = DoubleConv.forward a.conv p training (maxPool2 x) ∧
    AvgDown.forward a p training x = DoubleConv.forward a.conv p training (avgPool2 x) ∧
    (∀ b c i j,
      ((maxPool2 x).val b c i j = x.val b c (2 * i) (2 * j) ∨
        (maxPool2 x).val b c i j = x.val b c (2 * i) (2 * j + 1) ∨
        (maxPool2 x).val b c i j = x.val b c (2 * i + 1) (2 * j) ∨
        (maxPool2 x).val b c i j = x.val b c (2 * i + 1) (2 * j + 1)) ∧
      x.val b c (2 * i) (2 * j) ≤ (maxPool2 x).val b c i j ∧
      x.val b c (2 * i) (2 * j + 1) ≤ (maxPool2 x).val b c i j ∧
      x.val b c (2 * i + 1) (2 * j) ≤ (maxPool2 x).val b c i j ∧
      x.val b c (2 * i + 1) (2 * j + 1) ≤ (maxPool2 x).val b c i j) ∧
    (∀ b c i j, (avgPool2 x).val b c i j =
      (x.val b c (2 * i) (2 * j) + x.val b c (2 * i) (2 * j + 1) +
        x.val b c (2 * i + 1) (2 * j) + x.val b c (2 * i + 1) (2 * j + 1)) / 4) := by
  refine ⟨⟨rfl, rfl, rfl⟩, ⟨rfl, rfl, rfl⟩, rfl, rfl, ?_, fun b c i j => rfl⟩
  intro b c i j
  constructor
  · rcases max_choice (max (x.val b c (2 * i) (2 * j)) (x.val b c (2 * i) (2 * j + 1)))
        (max (x.val b c (2 * i + 1) (2 * j)) (x.val b c (2 * i + 1) (2 * j + 1))) with h | h
    · rcases max_choice (x.val b c (2 * i) (2 * j)) (x.val b c (2 * i) (2 * j + 1)) with h2 | h2
      · exact Or.inl (h.trans h2)
      · exact Or.inr (Or.inl (h.trans h2))
    · rcases max_choice (x.val b c (2 * i + 1) (2 * j))
          (x.val b c (2 * i + 1) (2 * j + 1)) with h2 | h2
      · exact Or.inr (Or.inr (Or.inl (h.trans h2)))
      · exact Or.inr (Or.inr (Or.inr (h.trans h2)))
  · exact ⟨le_trans (le_max_left _ _) (le_max_left _ _),
      le_trans (le_max_right _ _) (le_max_left _ _),
      le_trans (le_max_left _ _) (le_max_right _ _),
      le_trans (le_max_right _ _) (le_max_right _ _)⟩

/-- C4: Up.forward performs exactly the steps of model.py lines 69-77
in order: upsample x1 by factor 2 along both spatial axes (bilinear
corner-aligned interpolation when bilinear, else a learned transposed
convolution that halves the channel count); compute the spatial
differences diffY, diffX between x2 and the upsampled x1; zero-pad the
upsampled x1 with diffX fdiv 2 on the left, diffX minus that on the
right, diffY fdiv 2 on top and the rest on the bottom, so that its
spatial size equals x2's exactly; concatenate x2 first, then the padded
x1, along the channel axis; and apply DoubleConv, so the result has
C_out channels at x2's spatial resolution. -/
theorem up_forward_steps (a : UpArch) (p : UpParams) (training : Bool)
    (x1 x2 : Tensor) :
    ((Up.upsampled a p x1).H = 2 * x1.H ∧ (Up.upsampled a p x1).W = 2 * x1.W) ∧
    (Up.upsampled a p x1).C = (if a.bilinear then x1.C else a.inC / 2) ∧
    ((Up.padded a p x1 x2).H = x2.H ∧ (Up.padded a p x1 x2).W = x2.W) ∧
    (∀ b c i j, (Up.padded a p x1 x2).val b c i j =
        (Up.upsampled a p x1).zval b c
          ((i : ℤ) - Int.fdiv ((x2.H : ℤ) - ((Up.upsampled a p x1).H : ℤ)) 2)
          ((j : ℤ) - Int.fdiv ((x2.W : ℤ) - ((Up.upsampled a p x1).W : ℤ)) 2)) ∧
    (∀ b c i j, (catChannels x2 (Up.padded a p x1 x2)).val b c i j =
        if c < x2.C then x2.val b c i j
        else (Up.padded a p x1 x2).val b (c - x2.C) i j) ∧
    Up.forward a p training x1 x2 =
      ((DoubleConv.forward a.conv p.conv training
          (catChannels x2 (Up.padded a p x1 x2))).1,
        { p with conv := (DoubleConv.forward a.conv p.conv training
            (catChannels x2 (Up.padded a p x1 x2))).2 }) ∧
    ((Up.forward a p training x1 x2).1.C = a.conv.outC ∧
      (Up.forward a p training x1 x2).1.H = x2.H ∧
      (Up.forward a p training x1 x2).1.W = x2.W) := by
  refine ⟨?_, ?_, ?_, fun b c i j => rfl, fun b c i j => rfl, rfl, rfl, rfl, rfl⟩
  · constructor <;>
      (cases hb : a.bilinear <;>
        simp [Up.upsampled, hb, upsampleBilinear2, convTranspose2])
  · cases hb : a.bilinear <;>
      simp [Up.upsampled, hb, upsampleBilinear2, convTranspose2]
  · constructor <;> (simp only [Up.padded, padTensor]; omega)

/-- C10 (counterexample): in training mode — the default state of a
freshly constructed module and the state in which the repository's own
self-test would run — a single forward pass mutates the model's
normalization statistics: with all parameters zero except the stem's
first running mean (set to 1) and an all-zero input, that running mean
moves to 9/10 = (1 - momentum) * 1. -/
theorem unet_forward_training_updates_running_mean :
    ((UNet.forward (UNet.mk 1 1 false) oneRMParams true zeroTensor16).2).inc.bn1.running_mean 0 ≠
      oneRMParams.inc.bn1.running_mean 0 := by
  have hL : ((UNet.forward (UNet.mk 1 1 false) oneRMParams true
      zeroTensor16).2).inc.bn1.running_mean 0 =
      (1 - bnMomentum) * 1 +
        bnMomentum * batchMean (conv3x3 1 64 (fun _ _ _ _ => 0) zeroTensor16) 0 := rfl
  have hM : batchMean (conv3x3 1 64 (fun _ _ _ _ => 0) zeroTensor16) 0 = 0 := by
    simp [batchMean, conv3x3]
  have hR : oneRMParams.inc.bn1.running_mean 0 = 1 := rfl
  rw [hL, hM, hR]
  norm_num [bnMomentum]

/-- C10 (amended): a forward pass never mutates the learnable
parameters — convolution kernels, transposed-convolution kernels and
biases, batch-norm affine weights and biases, and the output
projection — in any mode (the parameter records agree after clearing
running statistics); and in eval mode it leaves the entire parameter
state, running statistics included, unchanged. In training mode the
running statistics are updated by the forward pass itself. -/
theorem unet_forward_parameter_frame (A : UNetArch) (P : UNetParams)
    (training : Bool) (x : Tensor) :
    ((UNet.forward A P training x).2).clearStats = P.clearStats ∧
      (UNet.forward A P false x).2 = P := by
  refine ⟨?_, rfl⟩
  cases training with
  | false => rfl
  | true => rfl
